import Mathlib

/-!
# Verification of `data_fetcher.py`

A shallow embedding of the batch data-acquisition utility in
`data_fetcher.py`.  The program downloads two spreadsheets, reads a table
of coordinates, and fetches one satellite image per row.

Modelling conventions:
* The filesystem is an association list from path to file content
  (`FS`); `open(path, "wb")` followed by writing the body is `FS.write`,
  which shadows any earlier entry for the path.
* Network effects are oracles.  `NetOutcome` describes what a single
  `requests.get` call does: `exn` is an exception raised before the
  response arrives (no file was opened), `resp code body` is a response
  with the given status whose body streams completely, and
  `streamExn partBody` is a 200 response whose body raises midway through
  `iter_content` — by then `open` has already created the file, so the
  partial body `partBody` is on disk when the exception is caught.
* A dataframe is a column-name list plus rows of cells; a cell is either
  a numeric value (`ℚ`) or missing (`Cell.na`, pandas NaN).
* Console output is modelled only where the spec refers to it
  (diagnostics); progress lines such as the tqdm bar are not modelled.
* Python exceptions that escape a function are modelled by `Option`
  (`none` = the call raised).
-/

namespace DataFetcher

/-- Filesystem: newest write first; `get?` finds the most recent content. -/
abbrev FS := List (String × String)

def FS.get? (fs : FS) (p : String) : Option String :=
  match fs with
  | [] => none
  | (q, c) :: rest => if q = p then some c else FS.get? rest p

/-- `os.path.exists` on our filesystem model. -/
def FS.pathExists (fs : FS) (p : String) : Bool :=
  (fs.get? p).isSome

/-- `open(p, "wb")` + write the whole content `c`. -/
def FS.write (fs : FS) (p : String) (c : String) : FS :=
  (p, c) :: fs

/-- Outcome of one `requests.get` call, as decided by the environment. -/
inductive NetOutcome
  | exn (msg : String)
  | resp (code : Nat) (body : String)
  | streamExn (partBody : String)
deriving DecidableEq

/-- The fixed parameter set of one Static Maps request
(`center`, `zoom=19`, `size=600x600`, `maptype=satellite`, `key`). -/
structure MapRequest where
  center : ℚ × ℚ
  zoom : Nat
  size : String
  maptype : String
  key : Option String
deriving DecidableEq

/-- The `params` dict built by `fetch_satellite_image`. -/
def mapParams (apiKey : Option String) (lat long : ℚ) : MapRequest :=
  ⟨(lat, long), 19, "600x600", "satellite", apiKey⟩

/-- `fetch_satellite_image(lat, long, output_path)`: issues one request,
writes the body to `output_path` iff the status is 200, returns the
success flag, the new filesystem and the printed diagnostics.  On a
mid-stream exception (`streamExn`) the file has already been created by
`open` before the exception is caught, so the partial body stays on disk
while `False` is returned. -/
def fetch_satellite_image (oracle : MapRequest → NetOutcome) (apiKey : Option String)
    (lat long : ℚ) (output_path : String) (fs : FS) : Bool × FS × List String :=
  match oracle (mapParams apiKey lat long) with
  | .resp code body =>
      if code = 200 then (true, fs.write output_path body, [])
      else (false, fs, ["Error " ++ toString code ++ ": " ++ body])
  | .streamExn partBody =>
      (false, fs.write output_path partBody, ["Exception fetching image: stream interrupted"])
  | .exn msg => (false, fs, ["Exception fetching image: " ++ msg])

/-- `download_excel_files(url, filename)`: skip when the destination
exists, otherwise issue one GET and stream the body to disk on a 200.
Returns the filesystem, whether a request was issued, and the printed
lines. -/
def download_excel_files (oracle : String → NetOutcome) (url filename : String)
    (fs : FS) : FS × Bool × List String :=
  if fs.pathExists filename then
    (fs, false, [filename ++ " already exists. Skipping download."])
  else
    let lg := "Downloading " ++ filename ++ " from " ++ url ++ "..."
    match oracle url with
    | .resp code body =>
        if code = 200 then
          (fs.write filename body, true, [lg, "Successfully downloaded " ++ filename])
        else
          (fs, true, [lg, "Failed to download " ++ filename ++ ". Status code: " ++ toString code])
    | .streamExn partBody =>
        (fs.write filename partBody, true, [lg, "Error downloading " ++ filename ++ ": stream interrupted"])
    | .exn msg =>
        (fs, true, [lg, "Error downloading " ++ filename ++ ": " ++ msg])

/-- One table cell: a numeric value or missing (pandas NaN). -/
inductive Cell
  | na
  | num (q : ℚ)
deriving DecidableEq

/-- A dataframe: ordered column names and rows of cells (each row is read
positionally against `cols`). -/
structure DataFrame where
  cols : List String
  rows : List (List Cell)
deriving DecidableEq

/-- `row[name]`: the cell of the first column carrying `name`. -/
def getCell (cols : List String) (row : List Cell) (name : String) : Cell :=
  match cols.findIdx? (fun c => c == name) with
  | some i => row.getD i .na
  | none => .na

/-- Python `int()` on a numeric value: truncation toward zero
(`Int.tdiv`, so `int(-2.5)` is `-2`, matching CPython). -/
def pyInt (q : ℚ) : Int :=
  q.num.tdiv (q.den : Int)

/-- `c.strip().lower()`: drop whitespace at both ends, then lowercase,
computed on the underlying character list. -/
def normalizeName (c : String) : String :=
  ⟨((c.data.dropWhile Char.isWhitespace).reverse.dropWhile Char.isWhitespace).reverse.map
      Char.toLower⟩

/-- One pass of the column-verification loop body for a required name
`col`: keep the dataframe if `col` is already a column, otherwise rename
the first column whose stripped lowercased name equals `col` (pandas
`rename` relabels every column carrying that exact label); `none` when no
candidate exists. -/
def resolveColumn (df : DataFrame) (col : String) : Option DataFrame :=
  if df.cols.contains col then some df
  else
    match df.cols.find? (fun c => normalizeName c == col) with
    | some c => some { df with cols := df.cols.map (fun x => if x = c then col else x) }
    | none => none

/-- The `for col in ['lat', 'long']` verification loop: resolve `lat`
first, then `long`; on the first failure return the dataframe as mutated
so far together with the name that failed. -/
def resolveColumns (df : DataFrame) : DataFrame × Option String :=
  match resolveColumn df "lat" with
  | none => (df, some "lat")
  | some df1 =>
      match resolveColumn df1 "long" with
      | none => (df1, some "long")
      | some df2 => (df2, none)

/-- The diagnostic printed when a required column cannot be resolved. -/
def columnError (col : String) (cols : List String) : String :=
  "Error: Column " ++ col ++ " not found. Available: " ++ String.intercalate ", " cols

/-- `str(int(row['id'])) if 'id' in df.columns else f"idx_{idx}"`.
`none` models the exception `int` raises on a missing id value. -/
def imgId (hasId : Bool) (cols : List String) (row : List Cell) (idx : Nat) :
    Option String :=
  if hasId then
    match getCell cols row "id" with
    | .num q => some (toString (pyInt q))
    | .na => none
  else some ("idx_" ++ toString idx)

/-- `os.path.join(output_dir, f"{img_id}.jpg")`. -/
def outputPath (output_dir iid : String) : String :=
  output_dir ++ "/" ++ iid ++ ".jpg"

/-- The loop state of `download_images_from_df`: the three counters, the
filesystem, the image requests issued so far and the printed
diagnostics. -/
structure RowState where
  saved : Nat
  skipped : Nat
  failed : Nat
  fs : FS
  reqs : List MapRequest
  log : List String
deriving DecidableEq

/-- One iteration of the row loop: compute the identifier (may raise),
skip when the output file exists, fail when a coordinate is missing,
otherwise fetch and count the outcome. -/
def stepRow (oracle : MapRequest → NetOutcome) (apiKey : Option String)
    (output_dir : String) (hasId : Bool) (cols : List String) (idx : Nat)
    (row : List Cell) (st : RowState) : Option RowState :=
  match imgId hasId cols row idx with
  | none => none
  | some iid =>
      let path := outputPath output_dir iid
      if st.fs.pathExists path then
        some { st with skipped := st.skipped + 1 }
      else
        match getCell cols row "lat", getCell cols row "long" with
        | .num la, .num lo =>
            let req := mapParams apiKey la lo
            let r := fetch_satellite_image oracle apiKey la lo path st.fs
            if r.1 then
              some { st with saved := st.saved + 1, fs := r.2.1,
                             reqs := st.reqs ++ [req], log := st.log ++ r.2.2 }
            else
              some { st with failed := st.failed + 1, fs := r.2.1,
                             reqs := st.reqs ++ [req], log := st.log ++ r.2.2 }
        | _, _ =>
            -- `pd.isna(lat) or pd.isna(long)` holds
            some { st with failed := st.failed + 1 }

/-- The `for idx, row in df.iterrows()` loop; `none` when an iteration
raised. -/
def processRows (oracle : MapRequest → NetOutcome) (apiKey : Option String)
    (output_dir : String) (hasId : Bool) (cols : List String) :
    List (List Cell) → Nat → RowState → Option RowState
  | [], _, st => some st
  | row :: rest, idx, st =>
      match stepRow oracle apiKey output_dir hasId cols idx row st with
      | none => none
      | some st1 => processRows oracle apiKey output_dir hasId cols rest (idx + 1) st1

/-- Result of one batch: early return on unresolved columns (with the
dataframe as mutated so far and the diagnostic), an escaped exception, or
normal completion. -/
inductive BatchResult
  | aborted (df : DataFrame) (log : List String)
  | raised (df : DataFrame)
  | done (df : DataFrame) (st : RowState)
deriving DecidableEq

/-- The dataframe as left by the batch (it is mutated in place). -/
def batchDF : BatchResult → DataFrame
  | .aborted df _ => df
  | .raised df => df
  | .done df _ => df

/-- The image requests a batch issued. -/
def batchReqs : BatchResult → List MapRequest
  | .aborted _ _ => []
  | .raised _ => []
  | .done _ st => st.reqs

/-- `download_images_from_df(df, output_dir)`: verify/resolve the
coordinate columns (aborting the whole batch with a diagnostic on
failure), then run the row loop with fresh counters. -/
def download_images_from_df (oracle : MapRequest → NetOutcome)
    (apiKey : Option String) (df : DataFrame) (output_dir : String) (fs : FS) :
    BatchResult :=
  match resolveColumns df with
  | (df1, some col) => .aborted df1 [columnError col df1.cols]
  | (df1, none) =>
      let hasId := df1.cols.contains "id"
      match processRows oracle apiKey output_dir hasId df1.cols df1.rows 0
          ⟨0, 0, 0, fs, [], []⟩ with
      | none => .raised df1
      | some st => .done df1 st

/-- Python truthiness of the `API_KEY` string from the environment:
absent or empty is falsy. -/
def apiKeyMissing : Option String → Bool
  | none => true
  | some s => s = ""

def train_url : String :=
  "https://1drv.ms/x/c/8cf6803adf7941c3/IQBue1q4w4TETL_7xWMGhcD_AejALtdsXTBejVUjRA9qeM8?download=1"

def test_url : String :=
  "https://1drv.ms/x/c/8cf6803adf7941c3/IQAwCVfSggmjQ4DJH51zJK-tARwRQWE9fl0bPlwo1mRF2PQ?download=1"

/-- What `main` produces: the final filesystem, the printed diagnostics,
the spreadsheet URLs requested and the image requests issued. -/
structure MainResult where
  fs : FS
  log : List String
  excelReqs : List String
  imgReqs : List MapRequest
deriving DecidableEq

/-- One `Step 2`/`Step 3` block of `main`: check the spreadsheet exists,
parse it (`pd.read_excel`, an oracle from file content to a dataframe or
a parse exception) and run the batch; any exception from loading or
processing is caught and reported.  A batch that raised has its partial
filesystem effects collapsed here, which no claim inspects. -/
def processDataset (imgOracle : MapRequest → NetOutcome) (apiKey : Option String)
    (readExcel : String → Except String DataFrame) (filename outDir : String)
    (fs : FS) : FS × List String × List MapRequest :=
  match fs.get? filename with
  | none => (fs, [filename ++ " not found."], [])
  | some content =>
      match readExcel content with
      | .error e => (fs, ["Error processing " ++ filename ++ ": " ++ e], [])
      | .ok df =>
          match download_images_from_df imgOracle apiKey df outDir fs with
          | .aborted _ lg => (fs, lg, [])
          | .raised _ => (fs, ["Error processing " ++ filename ++ ": exception"], [])
          | .done _ st => (st.fs, st.log, st.reqs)

/-- `main()`: abort with a diagnostic when the credential is missing,
otherwise download both spreadsheets and process both datasets. -/
def main (apiKey : Option String) (netOracle : String → NetOutcome)
    (imgOracle : MapRequest → NetOutcome)
    (readExcel : String → Except String DataFrame) (fs : FS) : MainResult :=
  if apiKeyMissing apiKey then
    ⟨fs, ["CRITICAL ERROR: GOOGLE_MAPS_API_KEY not found in .env file."], [], []⟩
  else
    let r1 := download_excel_files netOracle train_url "train.xlsx" fs
    let r2 := download_excel_files netOracle test_url "test.xlsx" r1.1
    let excelReqs := (if r1.2.1 then [train_url] else []) ++ (if r2.2.1 then [test_url] else [])
    let p1 := processDataset imgOracle apiKey readExcel "train.xlsx" "satellite_images" r2.1
    let p2 := processDataset imgOracle apiKey readExcel "test.xlsx" "test_images" p1.1
    ⟨p2.1, r1.2.2 ++ r2.2.2 ++ p1.2.1 ++ p2.2.1, excelReqs, p1.2.2 ++ p2.2.2⟩

/-- The three-row table of the spec's scenario. -/
def scenarioDF : DataFrame :=
  ⟨["id", "lat", "long"],
   [[.num 1, .num 40, .num (-74)],
    [.num 2, .na, .num (-73)],
    [.num 3, .num 41, .num (-75)]]⟩

/-! ## Helper lemmas about the filesystem model -/

theorem FS.get?_write (fs : FS) (p c q : String) :
    (fs.write p c).get? q = if p = q then some c else fs.get? q := rfl

theorem FS.pathExists_write_self (fs : FS) (p c : String) :
    (fs.write p c).pathExists p = true := by
  simp [FS.pathExists, FS.get?_write]

theorem FS.pathExists_write_of (fs : FS) (p c q : String)
    (h : fs.pathExists q = true) : (fs.write p c).pathExists q = true := by
  by_cases hpq : p = q
  · simp [FS.pathExists, FS.get?_write, hpq]
  · simp only [FS.pathExists, FS.get?_write, if_neg hpq]
    exact h

theorem FS.pathExists_write_ne (fs : FS) (p c q : String) (h : p ≠ q) :
    (fs.write p c).pathExists q = fs.pathExists q := by
  simp [FS.pathExists, FS.get?_write, h]

/-! ## Helper lemmas about the fetcher and the row loop -/

theorem fetch_fs_mono (oracle : MapRequest → NetOutcome) (apiKey : Option String)
    (la lo : ℚ) (path : String) (fs : FS) (p : String)
    (hp : fs.pathExists p = true) :
    (fetch_satellite_image oracle apiKey la lo path fs).2.1.pathExists p = true := by
  unfold fetch_satellite_image
  cases oracle (mapParams apiKey la lo) with
  | exn msg => exact hp
  | streamExn pb => exact FS.pathExists_write_of _ _ _ _ hp
  | resp code body =>
      by_cases hc : code = 200 <;> simp [hc]
      · exact FS.pathExists_write_of _ _ _ _ hp
      · exact hp

theorem stepRow_skip (oracle : MapRequest → NetOutcome) (apiKey : Option String)
    (dir : String) (hasId : Bool) (cols : List String) (idx : Nat) (row : List Cell)
    (st : RowState) (iid : String)
    (himg : imgId hasId cols row idx = some iid)
    (hex : st.fs.pathExists (outputPath dir iid) = true) :
    stepRow oracle apiKey dir hasId cols idx row st =
      some { st with skipped := st.skipped + 1 } := by
  simp [stepRow, himg, hex]

theorem stepRow_na (oracle : MapRequest → NetOutcome) (apiKey : Option String)
    (dir : String) (hasId : Bool) (cols : List String) (idx : Nat) (row : List Cell)
    (st : RowState) (iid : String)
    (himg : imgId hasId cols row idx = some iid)
    (hex : st.fs.pathExists (outputPath dir iid) = false)
    (hna : getCell cols row "lat" = Cell.na ∨ getCell cols row "long" = Cell.na) :
    stepRow oracle apiKey dir hasId cols idx row st =
      some { st with failed := st.failed + 1 } := by
  cases hla : getCell cols row "lat" <;> cases hlo : getCell cols row "long"
  case na.na | na.num | num.na => simp [stepRow, himg, hex, hla, hlo]
  case num.num => simp [hla, hlo] at hna

theorem stepRow_fetch_ok (oracle : MapRequest → NetOutcome) (apiKey : Option String)
    (dir : String) (hasId : Bool) (cols : List String) (idx : Nat) (row : List Cell)
    (st : RowState) (iid : String) (la lo : ℚ) (body : String)
    (himg : imgId hasId cols row idx = some iid)
    (hex : st.fs.pathExists (outputPath dir iid) = false)
    (hla : getCell cols row "lat" = Cell.num la)
    (hlo : getCell cols row "long" = Cell.num lo)
    (hb : oracle (mapParams apiKey la lo) = NetOutcome.resp 200 body) :
    stepRow oracle apiKey dir hasId cols idx row st =
      some ⟨st.saved + 1, st.skipped, st.failed,
            st.fs.write (outputPath dir iid) body,
            st.reqs ++ [mapParams apiKey la lo], st.log⟩ := by
  simp [stepRow, himg, hex, hla, hlo, fetch_satellite_image, hb]

theorem stepRow_mono (oracle : MapRequest → NetOutcome) (apiKey : Option String)
    (dir : String) (hasId : Bool) (cols : List String) (idx : Nat) (row : List Cell)
    (st st1 : RowState)
    (h : stepRow oracle apiKey dir hasId cols idx row st = some st1)
    (p : String) (hp : st.fs.pathExists p = true) : st1.fs.pathExists p = true := by
  unfold stepRow at h
  cases himg : imgId hasId cols row idx with
  | none => simp [himg] at h
  | some iid =>
      simp only [himg] at h
      cases hex : st.fs.pathExists (outputPath dir iid) with
      | true =>
          simp [hex] at h
          simp [← h, hp]
      | false =>
          simp only [hex, Bool.false_eq_true, if_false] at h
          cases hla : getCell cols row "lat" <;> cases hlo : getCell cols row "long" <;>
            simp only [hla, hlo] at h
          case na.na | na.num | num.na =>
            first
              | (simp at h; simp [← h, hp])
          case num.num la lo =>
            by_cases hr : (fetch_satellite_image oracle apiKey la lo (outputPath dir iid) st.fs).1 = true <;>
              simp [hr] at h <;> rw [← h] <;>
              exact fetch_fs_mono oracle apiKey la lo (outputPath dir iid) st.fs p hp

theorem processRows_mono (oracle : MapRequest → NetOutcome) (apiKey : Option String)
    (dir : String) (hasId : Bool) (cols : List String) :
    ∀ (rows : List (List Cell)) (idx : Nat) (st st2 : RowState),
      processRows oracle apiKey dir hasId cols rows idx st = some st2 →
      ∀ p, st.fs.pathExists p = true → st2.fs.pathExists p = true := by
  intro rows
  induction rows with
  | nil =>
      intro idx st st2 h p hp
      simp [processRows] at h
      rw [← h]; exact hp
  | cons row rest ih =>
      intro idx st st2 h p hp
      rw [processRows] at h
      cases hstep : stepRow oracle apiKey dir hasId cols idx row st with
      | none => rw [hstep] at h; simp at h
      | some st1 =>
          rw [hstep] at h
          exact ih (idx + 1) st1 st2 h p
            (stepRow_mono oracle apiKey dir hasId cols idx row st st1 hstep p hp)

theorem imgId_some (hasId : Bool) (cols : List String) (row : List Cell) (idx : Nat)
    (hid : hasId = true → getCell cols row "id" ≠ Cell.na) :
    ∃ iid, imgId hasId cols row idx = some iid := by
  cases hasId with
  | false => exact ⟨"idx_" ++ toString idx, by simp [imgId]⟩
  | true =>
      cases hc : getCell cols row "id" with
      | na => exact absurd hc (hid rfl)
      | num q => exact ⟨toString (pyInt q), by simp [imgId, hc]⟩

theorem stepRow_total (oracle : MapRequest → NetOutcome) (apiKey : Option String)
    (dir : String) (hasId : Bool) (cols : List String) (idx : Nat) (row : List Cell)
    (st : RowState) (iid : String)
    (himg : imgId hasId cols row idx = some iid) :
    ∃ st1, stepRow oracle apiKey dir hasId cols idx row st = some st1 ∧
      st1.saved + st1.skipped + st1.failed = st.saved + st.skipped + st.failed + 1 := by
  cases hex : st.fs.pathExists (outputPath dir iid) with
  | true =>
      exact ⟨_, stepRow_skip oracle apiKey dir hasId cols idx row st iid himg hex,
             by dsimp only; omega⟩
  | false =>
      cases hla : getCell cols row "lat" with
      | na =>
          exact ⟨_, stepRow_na oracle apiKey dir hasId cols idx row st iid himg hex (Or.inl hla),
                 by dsimp only; omega⟩
      | num la =>
          cases hlo : getCell cols row "long" with
          | na =>
              exact ⟨_, stepRow_na oracle apiKey dir hasId cols idx row st iid himg hex
                       (Or.inr hlo), by dsimp only; omega⟩
          | num lo =>
              by_cases hr :
                (fetch_satellite_image oracle apiKey la lo (outputPath dir iid) st.fs).1 = true
              · refine
                  ⟨⟨st.saved + 1, st.skipped, st.failed,
                    (fetch_satellite_image oracle apiKey la lo (outputPath dir iid) st.fs).2.1,
                    st.reqs ++ [mapParams apiKey la lo],
                    st.log ++
                      (fetch_satellite_image oracle apiKey la lo (outputPath dir iid) st.fs).2.2⟩,
                   ?_, ?_⟩
                · simp [stepRow, himg, hex, hla, hlo, hr]
                · dsimp only; omega
              · refine
                  ⟨⟨st.saved, st.skipped, st.failed + 1,
                    (fetch_satellite_image oracle apiKey la lo (outputPath dir iid) st.fs).2.1,
                    st.reqs ++ [mapParams apiKey la lo],
                    st.log ++
                      (fetch_satellite_image oracle apiKey la lo (outputPath dir iid) st.fs).2.2⟩,
                   ?_, ?_⟩
                · simp [stepRow, himg, hex, hla, hlo, hr]
                · dsimp only; omega

theorem processRows_total (oracle : MapRequest → NetOutcome) (apiKey : Option String)
    (dir : String) (hasId : Bool) (cols : List String) :
    ∀ (rows : List (List Cell)) (idx : Nat) (st : RowState),
      (∀ row ∈ rows, hasId = true → getCell cols row "id" ≠ Cell.na) →
      ∃ st2, processRows oracle apiKey dir hasId cols rows idx st = some st2 ∧
        st2.saved + st2.skipped + st2.failed =
          st.saved + st.skipped + st.failed + rows.length := by
  intro rows
  induction rows with
  | nil =>
      intro idx st _
      exact ⟨st, by simp [processRows], by simp⟩
  | cons row rest ih =>
      intro idx st hid
      obtain ⟨iid, himg⟩ :=
        imgId_some hasId cols row idx (hid row (List.mem_cons_self row rest))
      obtain ⟨st1, hstep, hsum1⟩ :=
        stepRow_total oracle apiKey dir hasId cols idx row st iid himg
      obtain ⟨st2, hrun, hsum2⟩ :=
        ih (idx + 1) st1 (fun r hr => hid r (List.mem_cons_of_mem row hr))
      refine ⟨st2, ?_, ?_⟩
      · rw [processRows, hstep]; exact hrun
      · simp only [List.length_cons]; omega

theorem processRows_no_new_reqs (oracle : MapRequest → NetOutcome) (apiKey : Option String)
    (dir : String) (hasId : Bool) (cols : List String)
    (hok : ∀ r, ∃ body, oracle r = NetOutcome.resp 200 body) :
    ∀ (rows : List (List Cell)) (idx : Nat) (st st2 t : RowState),
      processRows oracle apiKey dir hasId cols rows idx st = some st2 →
      (∀ p, st2.fs.pathExists p = true → t.fs.pathExists p = true) →
      ∃ t2, processRows oracle apiKey dir hasId cols rows idx t = some t2 ∧
        t2.reqs = t.reqs := by
  intro rows
  induction rows with
  | nil =>
      intro idx st st2 t _ _
      exact ⟨t, by simp [processRows], rfl⟩
  | cons row rest ih =>
      intro idx st st2 t h hsub
      rw [processRows] at h
      cases hstep : stepRow oracle apiKey dir hasId cols idx row st with
      | none => rw [hstep] at h; simp at h
      | some st1 =>
          rw [hstep] at h
          cases himg : imgId hasId cols row idx with
          | none =>
              have : stepRow oracle apiKey dir hasId cols idx row st = none := by
                simp [stepRow, himg]
              rw [this] at hstep; cases hstep
          | some iid =>
              cases hex : st.fs.pathExists (outputPath dir iid) with
              | true =>
                  have hstep1 :=
                    stepRow_skip oracle apiKey dir hasId cols idx row st iid himg hex
                  have hst1 : st1 = { st with skipped := st.skipped + 1 } :=
                    Option.some_inj.mp (hstep.symm.trans hstep1)
                  have hpath1 : st1.fs.pathExists (outputPath dir iid) = true := by
                    rw [hst1]; exact hex
                  have hpatht : t.fs.pathExists (outputPath dir iid) = true :=
                    hsub _ (processRows_mono oracle apiKey dir hasId cols rest (idx + 1)
                      st1 st2 h _ hpath1)
                  have hstep2 :=
                    stepRow_skip oracle apiKey dir hasId cols idx row t iid himg hpatht
                  obtain ⟨t2, hrun, hreq⟩ :=
                    ih (idx + 1) st1 st2 { t with skipped := t.skipped + 1 } h
                      (fun p hp => hsub p hp)
                  refine ⟨t2, ?_, hreq⟩
                  rw [processRows, hstep2]; exact hrun
              | false =>
                  cases hla : getCell cols row "lat" with
                  | na =>
                      cases hext : t.fs.pathExists (outputPath dir iid) with
                      | true =>
                          have hstep2 := stepRow_skip oracle apiKey dir hasId cols idx row t
                            iid himg hext
                          obtain ⟨t2, hrun, hreq⟩ :=
                            ih (idx + 1) st1 st2 { t with skipped := t.skipped + 1 } h
                              (fun p hp => hsub p hp)
                          refine ⟨t2, ?_, hreq⟩
                          rw [processRows, hstep2]; exact hrun
                      | false =>
                          have hstep2 := stepRow_na oracle apiKey dir hasId cols idx row t
                            iid himg hext (Or.inl hla)
                          obtain ⟨t2, hrun, hreq⟩ :=
                            ih (idx + 1) st1 st2 { t with failed := t.failed + 1 } h
                              (fun p hp => hsub p hp)
                          refine ⟨t2, ?_, hreq⟩
                          rw [processRows, hstep2]; exact hrun
                  | num la =>
                      cases hlo : getCell cols row "long" with
                      | na =>
                          cases hext : t.fs.pathExists (outputPath dir iid) with
                          | true =>
                              have hstep2 := stepRow_skip oracle apiKey dir hasId cols idx
                                row t iid himg hext
                              obtain ⟨t2, hrun, hreq⟩ :=
                                ih (idx + 1) st1 st2 { t with skipped := t.skipped + 1 } h
                                  (fun p hp => hsub p hp)
                              refine ⟨t2, ?_, hreq⟩
                              rw [processRows, hstep2]; exact hrun
                          | false =>
                              have hstep2 := stepRow_na oracle apiKey dir hasId cols idx
                                row t iid himg hext (Or.inr hlo)
                              obtain ⟨t2, hrun, hreq⟩ :=
                                ih (idx + 1) st1 st2 { t with failed := t.failed + 1 } h
                                  (fun p hp => hsub p hp)
                              refine ⟨t2, ?_, hreq⟩
                              rw [processRows, hstep2]; exact hrun
                      | num lo =>
                          obtain ⟨body, hb⟩ := hok (mapParams apiKey la lo)
                          have hstep1 := stepRow_fetch_ok oracle apiKey dir hasId cols idx
                            row st iid la lo body himg hex hla hlo hb
                          have hst1 := Option.some_inj.mp (hstep.symm.trans hstep1)
                          have hpath1 : st1.fs.pathExists (outputPath dir iid) = true := by
                            rw [hst1]; exact FS.pathExists_write_self _ _ _
                          have hpatht : t.fs.pathExists (outputPath dir iid) = true :=
                            hsub _ (processRows_mono oracle apiKey dir hasId cols rest
                              (idx + 1) st1 st2 h _ hpath1)
                          have hstep2 := stepRow_skip oracle apiKey dir hasId cols idx row t
                            iid himg hpatht
                          obtain ⟨t2, hrun, hreq⟩ :=
                            ih (idx + 1) st1 st2 { t with skipped := t.skipped + 1 } h
                              (fun p hp => hsub p hp)
                          refine ⟨t2, ?_, hreq⟩
                          rw [processRows, hstep2]; exact hrun

/-! ## Helper lemmas about column resolution -/

theorem resolveColumn_rows (df : DataFrame) (col : String) (d : DataFrame)
    (h : resolveColumn df col = some d) : d.rows = df.rows := by
  unfold resolveColumn at h
  split at h
  · cases h; rfl
  · split at h
    · cases h; rfl
    · cases h

theorem resolveColumn_of_contains (df : DataFrame) (col : String)
    (h : df.cols.contains col = true) : resolveColumn df col = some df := by
  have hm : col ∈ df.cols := by simpa using h
  simp [resolveColumn, hm]

theorem resolveColumn_some_contains (df : DataFrame) (col : String) (d : DataFrame)
    (h : resolveColumn df col = some d) : d.cols.contains col = true := by
  unfold resolveColumn at h
  split at h
  case isTrue hc => cases h; exact hc
  case isFalse hc =>
    cases hfind : df.cols.find? (fun c => normalizeName c == col) with
    | none => rw [hfind] at h; cases h
    | some c =>
        rw [hfind] at h
        cases h
        have hmem : c ∈ df.cols := List.mem_of_find?_eq_some hfind
        have : col ∈ df.cols.map (fun x => if x = c then col else x) :=
          List.mem_map.mpr ⟨c, hmem, by simp⟩
        simpa using this

theorem resolveColumn_preserves (df : DataFrame) (col : String) (d : DataFrame)
    (h : resolveColumn df col = some d) (x : String)
    (hx : df.cols.contains x = true) (hnorm : normalizeName x ≠ col) :
    d.cols.contains x = true := by
  unfold resolveColumn at h
  split at h
  · cases h; exact hx
  · cases hfind : df.cols.find? (fun c => normalizeName c == col) with
    | none => rw [hfind] at h; cases h
    | some c =>
        rw [hfind] at h
        cases h
        have hcnorm : normalizeName c = col := by
          have := List.find?_some hfind
          simpa using this
        have hxc : x ≠ c := fun hxc => hnorm (hxc ▸ hcnorm)
        have hxm : x ∈ df.cols := by simpa using hx
        have : x ∈ df.cols.map (fun y => if y = c then col else y) :=
          List.mem_map.mpr ⟨x, hxm, by simp [hxc]⟩
        simpa using this

theorem resolveColumns_none_inv (df df1 : DataFrame)
    (h : resolveColumns df = (df1, none)) :
    df1.cols.contains "lat" = true ∧ df1.cols.contains "long" = true := by
  unfold resolveColumns at h
  cases h1 : resolveColumn df "lat" with
  | none => rw [h1] at h; simp at h
  | some dfa =>
      simp only [h1] at h
      cases h2 : resolveColumn dfa "long" with
      | none => simp only [h2] at h; simp at h
      | some dfb =>
          simp only [h2, Prod.mk.injEq] at h
          obtain ⟨h3, -⟩ := h
          subst h3
          exact ⟨resolveColumn_preserves dfa "long" dfb h2 "lat"
                   (resolveColumn_some_contains df "lat" dfa h1) (by decide),
                 resolveColumn_some_contains dfa "long" dfb h2⟩

theorem resolveColumns_idem (df df1 : DataFrame)
    (h : resolveColumns df = (df1, none)) : resolveColumns df1 = (df1, none) := by
  obtain ⟨hlat, hlong⟩ := resolveColumns_none_inv df df1 h
  simp only [resolveColumns, resolveColumn_of_contains df1 "lat" hlat,
    resolveColumn_of_contains df1 "long" hlong]

/-! ## Helper lemmas about the batch entry point -/

theorem download_eq_done (oracle : MapRequest → NetOutcome) (apiKey : Option String)
    (df df1 : DataFrame) (dir : String) (fs : FS) (st : RowState)
    (hres : resolveColumns df = (df1, none))
    (hpr : processRows oracle apiKey dir (df1.cols.contains "id") df1.cols df1.rows 0
        ⟨0, 0, 0, fs, [], []⟩ = some st) :
    download_images_from_df oracle apiKey df dir fs = .done df1 st := by
  unfold download_images_from_df
  rw [hres]
  simp only [hpr]

theorem download_done_inv (oracle : MapRequest → NetOutcome) (apiKey : Option String)
    (df df1 : DataFrame) (dir : String) (fs : FS) (st : RowState)
    (h : download_images_from_df oracle apiKey df dir fs = .done df1 st) :
    resolveColumns df = (df1, none) ∧
    processRows oracle apiKey dir (df1.cols.contains "id") df1.cols df1.rows 0
      ⟨0, 0, 0, fs, [], []⟩ = some st := by
  unfold download_images_from_df at h
  cases hres : resolveColumns df with
  | mk dfa err =>
      rw [hres] at h
      cases err with
      | some col => simp at h
      | none =>
          simp only at h
          cases hpr : processRows oracle apiKey dir (dfa.cols.contains "id") dfa.cols dfa.rows 0
              ⟨0, 0, 0, fs, [], []⟩ with
          | none => rw [hpr] at h; cases h
          | some st1 =>
              rw [hpr] at h
              cases h
              exact ⟨rfl, hpr⟩

/-! ## Claim C1 -/

/-- C1, counterexample: a row whose latitude is missing but whose output
file already exists is counted as skipped (skip counter 1, fail counter
0), not as failed — the existence check precedes the missing-coordinate
check, so the claim's "regardless of whether the row's output file
already exists" is false.  No request is issued either way. -/
theorem c1_counterexample :
    download_images_from_df (fun _ => NetOutcome.exn "down") none
        ⟨["lat", "long"], [[Cell.na, Cell.num 1]]⟩ "out" [("out/idx_0.jpg", "x")] =
      BatchResult.done ⟨["lat", "long"], [[Cell.na, Cell.num 1]]⟩
        ⟨0, 1, 0, [("out/idx_0.jpg", "x")], [], []⟩ := by
  decide

/-- C1 (amended): for every row whose latitude or longitude is missing,
no image request is issued and the filesystem is unchanged; the row is
counted as failed when its output file does not already exist, and as
skipped when it does. -/
theorem c1_missing_coord_amended (oracle : MapRequest → NetOutcome)
    (apiKey : Option String) (dir : String) (hasId : Bool) (cols : List String)
    (idx : Nat) (row : List Cell) (st : RowState) (iid : String)
    (himg : imgId hasId cols row idx = some iid)
    (hna : getCell cols row "lat" = Cell.na ∨ getCell cols row "long" = Cell.na) :
    stepRow oracle apiKey dir hasId cols idx row st =
      some (if st.fs.pathExists (outputPath dir iid) = true
            then { st with skipped := st.skipped + 1 }
            else { st with failed := st.failed + 1 }) := by
  cases hex : st.fs.pathExists (outputPath dir iid) with
  | true =>
      rw [stepRow_skip oracle apiKey dir hasId cols idx row st iid himg hex]
      simp
  | false =>
      rw [stepRow_na oracle apiKey dir hasId cols idx row st iid himg hex hna]
      simp

theorem c1_missing_coord_amended_witness :
    stepRow (fun _ => NetOutcome.exn "e") none "out" false ["lat", "long"] 0
        [Cell.na, Cell.num 1] ⟨0, 0, 0, [], [], []⟩ =
      some (if FS.pathExists [] (outputPath "out" "idx_0") = true
            then ⟨0, 1, 0, [], [], []⟩
            else ⟨0, 0, 1, [], [], []⟩) :=
  c1_missing_coord_amended (fun _ => NetOutcome.exn "e") none "out" false
    ["lat", "long"] 0 [Cell.na, Cell.num 1] ⟨0, 0, 0, [], [], []⟩ "idx_0"
    (by decide) (Or.inl (by decide))

/-! ## Claim C2 -/

/-- C2, counterexample: when a 200 response's body stream raises midway,
the fetcher returns `false` yet a file has been created at the output
path (the filesystem at that path changed from absent to present), so
"whenever the call returns False ... no file is created" is false. -/
theorem c2_counterexample :
    fetch_satellite_image (fun _ => NetOutcome.streamExn "") none 1 2 "p.jpg" [] =
      (false, [("p.jpg", "")], ["Exception fetching image: stream interrupted"]) ∧
    FS.pathExists [("p.jpg", "")] "p.jpg" = true ∧
    FS.pathExists [] "p.jpg" = false := by
  decide

/-- C2 (amended): the output file is written exactly when a 200 status is
received.  When the call returns `False` because of a non-200 status or
an exception raised before the response arrives, no file is created and
the filesystem is unchanged; an exception during body streaming after a
200 status also returns `False`, but the (partial) file is on disk. -/
theorem c2_write_on_success_amended (oracle : MapRequest → NetOutcome)
    (apiKey : Option String) (la lo : ℚ) (path : String) (fs : FS) :
    (∀ msg, oracle (mapParams apiKey la lo) = NetOutcome.exn msg →
      fetch_satellite_image oracle apiKey la lo path fs =
        (false, fs, ["Exception fetching image: " ++ msg])) ∧
    (∀ code body, oracle (mapParams apiKey la lo) = NetOutcome.resp code body →
      code ≠ 200 →
      fetch_satellite_image oracle apiKey la lo path fs =
        (false, fs, ["Error " ++ toString code ++ ": " ++ body])) ∧
    (∀ pb, oracle (mapParams apiKey la lo) = NetOutcome.streamExn pb →
      fetch_satellite_image oracle apiKey la lo path fs =
        (false, fs.write path pb, ["Exception fetching image: stream interrupted"])) ∧
    (∀ body, oracle (mapParams apiKey la lo) = NetOutcome.resp 200 body →
      fetch_satellite_image oracle apiKey la lo path fs =
        (true, fs.write path body, [])) := by
  refine ⟨?_, ?_, ?_, ?_⟩
  · intro msg hmsg; simp [fetch_satellite_image, hmsg]
  · intro code body hcb hne; simp [fetch_satellite_image, hcb, hne]
  · intro pb hpb; simp [fetch_satellite_image, hpb]
  · intro body hcb; simp [fetch_satellite_image, hcb]

theorem c2_write_on_success_amended_witness :
    fetch_satellite_image (fun _ => NetOutcome.resp 404 "nf") none 1 2 "p.jpg" [] =
      (false, [], ["Error 404: nf"]) :=
  (c2_write_on_success_amended (fun _ => NetOutcome.resp 404 "nf") none 1 2
    "p.jpg" []).2.1 404 "nf" rfl (by decide)

/-! ## Claim C5 -/

/-- C5: when the coordinate columns cannot be resolved, the batch returns
before processing any row — the result is the abort outcome carrying
exactly the diagnostic that lists the available column names, and zero
image requests are issued. -/
theorem c5_abort_on_unresolved_columns (oracle : MapRequest → NetOutcome)
    (apiKey : Option String) (df : DataFrame) (dir : String) (fs : FS)
    (df1 : DataFrame) (col : String)
    (h : resolveColumns df = (df1, some col)) :
    download_images_from_df oracle apiKey df dir fs =
      .aborted df1 [columnError col df1.cols] ∧
    batchReqs (download_images_from_df oracle apiKey df dir fs) = [] := by
  have h1 : download_images_from_df oracle apiKey df dir fs =
      .aborted df1 [columnError col df1.cols] := by
    unfold download_images_from_df
    rw [h]
  exact ⟨h1, by rw [h1]; rfl⟩

theorem c5_abort_on_unresolved_columns_witness :
    download_images_from_df (fun _ => NetOutcome.exn "e") none ⟨["lat", "x"], []⟩
        "out" [] =
      .aborted ⟨["lat", "x"], []⟩ [columnError "long" ["lat", "x"]] ∧
    batchReqs (download_images_from_df (fun _ => NetOutcome.exn "e") none
      ⟨["lat", "x"], []⟩ "out" []) = [] :=
  c5_abort_on_unresolved_columns (fun _ => NetOutcome.exn "e") none
    ⟨["lat", "x"], []⟩ "out" [] ⟨["lat", "x"], []⟩ "long" (by decide)

/-! ## Claim C6 -/

/-- C6: with the credential absent, `main` returns at once: the
filesystem is returned unchanged, the only output is the critical-error
diagnostic, no spreadsheet request and no image request is issued. -/
theorem c6_missing_api_key (netOracle : String → NetOutcome)
    (imgOracle : MapRequest → NetOutcome)
    (readExcel : String → Except String DataFrame) (fs : FS) :
    main none netOracle imgOracle readExcel fs =
      ⟨fs, ["CRITICAL ERROR: GOOGLE_MAPS_API_KEY not found in .env file."], [], []⟩ :=
  rfl

/-! ## Claim C7 -/

/-- C7: when the destination spreadsheet already exists, the downloader
issues no request, reports the file as skipped, and returns the
filesystem unchanged. -/
theorem c7_skip_existing_spreadsheet (oracle : String → NetOutcome)
    (url filename : String) (fs : FS)
    (h : fs.pathExists filename = true) :
    download_excel_files oracle url filename fs =
      (fs, false, [filename ++ " already exists. Skipping download."]) := by
  simp [download_excel_files, h]

theorem c7_skip_existing_spreadsheet_witness :
    download_excel_files (fun _ => NetOutcome.exn "e") "u" "f.xlsx"
        [("f.xlsx", "x")] =
      ([("f.xlsx", "x")], false, ["f.xlsx already exists. Skipping download."]) :=
  c7_skip_existing_spreadsheet (fun _ => NetOutcome.exn "e") "u" "f.xlsx"
    [("f.xlsx", "x")] (by decide)

/-! ## Claim C3 -/

/-- C3: re-fetch idempotence.  Any row whose output file exists is
skipped without a request and without touching the filesystem; and when a
first batch run completed with every issued fetch succeeding, a second
run over the same (already column-resolved) table and the resulting
filesystem completes while issuing zero image requests. -/
theorem c3_refetch_idempotence (oracle : MapRequest → NetOutcome)
    (apiKey : Option String) (df : DataFrame) (dir : String) (fs : FS)
    (df1 : DataFrame) (st1 : RowState)
    (hok : ∀ r, ∃ body, oracle r = NetOutcome.resp 200 body)
    (h1 : download_images_from_df oracle apiKey df dir fs = .done df1 st1) :
    (∀ (st : RowState) (hasId : Bool) (cols : List String) (idx : Nat)
        (row : List Cell) (iid : String),
        imgId hasId cols row idx = some iid →
        st.fs.pathExists (outputPath dir iid) = true →
        stepRow oracle apiKey dir hasId cols idx row st =
          some { st with skipped := st.skipped + 1 }) ∧
    ∃ st2, download_images_from_df oracle apiKey df1 dir st1.fs = .done df1 st2 ∧
      st2.reqs = [] := by
  obtain ⟨hres, hpr⟩ := download_done_inv oracle apiKey df df1 dir fs st1 h1
  refine ⟨fun st hasId cols idx row iid himg hex =>
    stepRow_skip oracle apiKey dir hasId cols idx row st iid himg hex, ?_⟩
  obtain ⟨t2, hrun, hreq⟩ :=
    processRows_no_new_reqs oracle apiKey dir (df1.cols.contains "id") df1.cols hok
      df1.rows 0 ⟨0, 0, 0, fs, [], []⟩ st1 ⟨0, 0, 0, st1.fs, [], []⟩ hpr
      (fun p hp => hp)
  exact ⟨t2, download_eq_done oracle apiKey df1 df1 dir st1.fs t2
    (resolveColumns_idem df df1 hres) hrun, hreq⟩

theorem c3_refetch_idempotence_witness :
    (∀ (st : RowState) (hasId : Bool) (cols : List String) (idx : Nat)
        (row : List Cell) (iid : String),
        imgId hasId cols row idx = some iid →
        st.fs.pathExists (outputPath "out" iid) = true →
        stepRow (fun _ => NetOutcome.resp 200 "B") none "out" hasId cols idx row st =
          some { st with skipped := st.skipped + 1 }) ∧
    ∃ st2, download_images_from_df (fun _ => NetOutcome.resp 200 "B") none
        ⟨["lat", "long"], [[Cell.num 1, Cell.num 2]]⟩ "out"
        (RowState.fs ⟨1, 0, 0, [("out/idx_0.jpg", "B")], [mapParams none 1 2], []⟩) =
          .done ⟨["lat", "long"], [[Cell.num 1, Cell.num 2]]⟩ st2 ∧
      st2.reqs = [] :=
  c3_refetch_idempotence (fun _ => NetOutcome.resp 200 "B") none
    ⟨["lat", "long"], [[Cell.num 1, Cell.num 2]]⟩ "out" []
    ⟨["lat", "long"], [[Cell.num 1, Cell.num 2]]⟩
    ⟨1, 0, 0, [("out/idx_0.jpg", "B")], [mapParams none 1 2], []⟩
    (fun _ => ⟨"B", rfl⟩) (by decide)

/-! ## Claim C9 -/

/-- C9: when column resolution succeeds and, if an id column is present,
no row's id value is missing, the batch completes normally and the three
counters sum to the number of rows (each row increments exactly one of
them). -/
theorem c9_counter_completeness (oracle : MapRequest → NetOutcome)
    (apiKey : Option String) (df : DataFrame) (dir : String) (fs : FS)
    (df1 : DataFrame)
    (hres : resolveColumns df = (df1, none))
    (hid : ∀ row ∈ df1.rows, df1.cols.contains "id" = true →
      getCell df1.cols row "id" ≠ Cell.na) :
    ∃ st, download_images_from_df oracle apiKey df dir fs = .done df1 st ∧
      st.saved + st.skipped + st.failed = df1.rows.length := by
  obtain ⟨st, hpr, hsum⟩ :=
    processRows_total oracle apiKey dir (df1.cols.contains "id") df1.cols df1.rows 0
      ⟨0, 0, 0, fs, [], []⟩ hid
  exact ⟨st, download_eq_done oracle apiKey df df1 dir fs st hres hpr,
    by simpa using hsum⟩

theorem c9_counter_completeness_witness :
    ∃ st, download_images_from_df (fun _ => NetOutcome.exn "e") none
        ⟨["id", "lat", "long"], [[Cell.num 7, Cell.na, Cell.num 2]]⟩ "out" [] =
        .done ⟨["id", "lat", "long"], [[Cell.num 7, Cell.na, Cell.num 2]]⟩ st ∧
      st.saved + st.skipped + st.failed =
        (DataFrame.rows ⟨["id", "lat", "long"], [[Cell.num 7, Cell.na, Cell.num 2]]⟩).length :=
  c9_counter_completeness (fun _ => NetOutcome.exn "e") none
    ⟨["id", "lat", "long"], [[Cell.num 7, Cell.na, Cell.num 2]]⟩ "out" []
    ⟨["id", "lat", "long"], [[Cell.num 7, Cell.na, Cell.num 2]]⟩
    (by decide) (by decide)

/-! ## Claim C8 -/

/-- C8, counterexample: for a table with no id column, the file written
for the row at position 0 is `out/idx_0.jpg`, not `out/0.jpg` — the
fallback identifier is the string `idx_<positional index>`, not the bare
positional index the claim describes. -/
theorem c8_counterexample :
    download_images_from_df (fun _ => NetOutcome.resp 200 "B") none
        ⟨["lat", "long"], [[Cell.num 1, Cell.num 2]]⟩ "out" [] =
      BatchResult.done ⟨["lat", "long"], [[Cell.num 1, Cell.num 2]]⟩
        ⟨1, 0, 0, [("out/idx_0.jpg", "B")], [mapParams none 1 2], []⟩ ∧
    FS.pathExists [("out/idx_0.jpg", "B")] "out/idx_0.jpg" = true ∧
    FS.pathExists [("out/idx_0.jpg", "B")] "out/0.jpg" = false := by
  decide

/-- C8 (amended): a successfully fetched row writes its image to
`<output_dir>/<identifier>.jpg`, where the identifier is the decimal
string of the integer value of the row's id cell when the table has an
id column, and the string `idx_` followed by the positional row index
otherwise. -/
theorem c8_output_path_amended (oracle : MapRequest → NetOutcome)
    (apiKey : Option String) (dir : String) (hasId : Bool) (cols : List String)
    (idx : Nat) (row : List Cell) (st : RowState) (iid : String) (la lo : ℚ)
    (body : String)
    (himg : imgId hasId cols row idx = some iid)
    (hex : st.fs.pathExists (outputPath dir iid) = false)
    (hla : getCell cols row "lat" = Cell.num la)
    (hlo : getCell cols row "long" = Cell.num lo)
    (hb : oracle (mapParams apiKey la lo) = NetOutcome.resp 200 body) :
    stepRow oracle apiKey dir hasId cols idx row st =
      some ⟨st.saved + 1, st.skipped, st.failed,
            st.fs.write (dir ++ "/" ++ iid ++ ".jpg") body,
            st.reqs ++ [mapParams apiKey la lo], st.log⟩ ∧
    (hasId = false → iid = "idx_" ++ toString idx) ∧
    (∀ q, hasId = true → getCell cols row "id" = Cell.num q →
      iid = toString (pyInt q)) := by
  refine ⟨stepRow_fetch_ok oracle apiKey dir hasId cols idx row st iid la lo body
    himg hex hla hlo hb, ?_, ?_⟩
  · intro hfalse
    rw [hfalse] at himg
    simpa [imgId] using himg.symm
  · intro q htrue hq
    rw [htrue] at himg
    simp only [imgId, if_true, hq] at himg
    exact (Option.some_inj.mp himg).symm

theorem c8_output_path_amended_witness :
    stepRow (fun _ => NetOutcome.resp 200 "B") none "out" false ["lat", "long"] 0
        [Cell.num 1, Cell.num 2] ⟨0, 0, 0, [], [], []⟩ =
      some ⟨1, 0, 0, FS.write [] ("out" ++ "/" ++ "idx_0" ++ ".jpg") "B",
            [mapParams none 1 2], []⟩ ∧
    (false = false → "idx_0" = "idx_" ++ toString 0) ∧
    (∀ q : ℚ, false = true →
      getCell ["lat", "long"] [Cell.num 1, Cell.num 2] "id" = Cell.num q →
      "idx_0" = toString (pyInt q)) :=
  c8_output_path_amended (fun _ => NetOutcome.resp 200 "B") none "out" false
    ["lat", "long"] 0 [Cell.num 1, Cell.num 2] ⟨0, 0, 0, [], [], []⟩ "idx_0" 1 2 "B"
    (by decide) (by decide) (by decide) (by decide) rfl

/-! ## Claim C10 -/

/-- C10, counterexample: with columns `["lat", "Lat", "long"]` the column
`Lat` matches `lat` only after stripping and lowercasing, yet the batch
leaves it unrenamed (the exact name `lat` is already present, so the
rename branch is never taken), falsifying "when a column name matches
only after stripping and lowercasing, that column is renamed". -/
theorem c10_counterexample :
    download_images_from_df (fun _ => NetOutcome.exn "e") none
        ⟨["lat", "Lat", "long"], []⟩ "out" [] =
      BatchResult.done ⟨["lat", "Lat", "long"], []⟩ ⟨0, 0, 0, [], [], []⟩ ∧
    normalizeName "Lat" = "lat" ∧ ("Lat" : String) ≠ "lat" := by
  decide

/-- C10 (amended): the batch mutates the caller's dataframe exactly as
the one-time column resolution does; cell values and row order are never
changed; when the exact names `lat` and `long` are both already present
no column is renamed at all; and a rename for a target happens only when
the exact target name is absent, relabelling precisely the first column
(in column order) whose stripped lowercased name equals the target. -/
theorem c10_rename_amended (oracle : MapRequest → NetOutcome)
    (apiKey : Option String) (df : DataFrame) (dir : String) (fs : FS) :
    batchDF (download_images_from_df oracle apiKey df dir fs) =
      (resolveColumns df).1 ∧
    (resolveColumns df).1.rows = df.rows ∧
    (df.cols.contains "lat" = true → df.cols.contains "long" = true →
      batchDF (download_images_from_df oracle apiKey df dir fs) = df) ∧
    (∀ target c, df.cols.contains target = false →
      df.cols.find? (fun x => normalizeName x == target) = some c →
      resolveColumn df target =
        some ⟨df.cols.map (fun x => if x = c then target else x), df.rows⟩) := by
  have hbatch : batchDF (download_images_from_df oracle apiKey df dir fs) =
      (resolveColumns df).1 := by
    unfold download_images_from_df
    cases hres : resolveColumns df with
    | mk dfa err =>
        cases err with
        | some col => rfl
        | none =>
            simp only
            cases hpr : processRows oracle apiKey dir (dfa.cols.contains "id") dfa.cols
                dfa.rows 0 ⟨0, 0, 0, fs, [], []⟩ with
            | none => rfl
            | some st => rfl
  refine ⟨hbatch, ?_, ?_, ?_⟩
  · unfold resolveColumns
    cases h1 : resolveColumn df "lat" with
    | none => rfl
    | some dfa =>
        simp only
        cases h2 : resolveColumn dfa "long" with
        | none => exact resolveColumn_rows df "lat" dfa h1
        | some dfb =>
            simp only
            rw [resolveColumn_rows dfa "long" dfb h2, resolveColumn_rows df "lat" dfa h1]
  · intro hlat hlong
    rw [hbatch]
    simp only [resolveColumns, resolveColumn_of_contains df "lat" hlat,
      resolveColumn_of_contains df "long" hlong]
  · intro target c htarget hfind
    have hm : target ∉ df.cols := by
      intro hmem
      have hc : df.cols.contains target = true := by simpa using hmem
      rw [htarget] at hc
      cases hc
    simp [resolveColumn, hm, hfind]

theorem c10_rename_amended_witness :
    batchDF (download_images_from_df (fun _ => NetOutcome.exn "e") none
      ⟨[" LAT ", "Long", "id"], [[Cell.num 5, Cell.num 6, Cell.num 7]]⟩ "out" []) =
      (resolveColumns ⟨[" LAT ", "Long", "id"], [[Cell.num 5, Cell.num 6, Cell.num 7]]⟩).1 ∧
    (resolveColumns ⟨[" LAT ", "Long", "id"],
        [[Cell.num 5, Cell.num 6, Cell.num 7]]⟩).1.rows =
      [[Cell.num 5, Cell.num 6, Cell.num 7]] ∧
    resolveColumn ⟨[" LAT ", "Long", "id"], [[Cell.num 5, Cell.num 6, Cell.num 7]]⟩
        "lat" =
      some ⟨["lat", "Long", "id"], [[Cell.num 5, Cell.num 6, Cell.num 7]]⟩ := by
  obtain ⟨h1, h2, -, h4⟩ := c10_rename_amended (fun _ => NetOutcome.exn "e") none
    ⟨[" LAT ", "Long", "id"], [[Cell.num 5, Cell.num 6, Cell.num 7]]⟩ "out" []
  refine ⟨h1, h2, ?_⟩
  have := h4 "lat" " LAT " (by decide) (by decide)
  simpa using this

theorem FS.pathExists_write_false (fs : FS) (p c q : String) (hne : p ≠ q)
    (h : fs.pathExists q = false) : (fs.write p c).pathExists q = false := by
  rw [FS.pathExists_write_ne fs p c q hne]; exact h

/-! ## Claim C4 -/

/-- C4: on the spec's three-row scenario table with an empty output
directory and every issued fetch succeeding, the first run reports 2
saved, 1 failed, 0 skipped; a second run over the resulting filesystem
reports 0 saved, 1 failed, 2 skipped. -/
theorem c4_scenario (oracle : MapRequest → NetOutcome) (apiKey : Option String)
    (hok : ∀ r, ∃ body, oracle r = NetOutcome.resp 200 body) :
    ∃ st1 st2,
      download_images_from_df oracle apiKey scenarioDF "satellite_images" [] =
        .done scenarioDF st1 ∧
      st1.saved = 2 ∧ st1.failed = 1 ∧ st1.skipped = 0 ∧
      download_images_from_df oracle apiKey scenarioDF "satellite_images" st1.fs =
        .done scenarioDF st2 ∧
      st2.saved = 0 ∧ st2.failed = 1 ∧ st2.skipped = 2 := by
  obtain ⟨b1, hb1⟩ := hok (mapParams apiKey 40 (-74))
  obtain ⟨b2, hb2⟩ := hok (mapParams apiKey 41 (-75))
  -- first run, row by row
  have hs0 : stepRow oracle apiKey "satellite_images" true ["id", "lat", "long"] 0
      [Cell.num 1, Cell.num 40, Cell.num (-74)] ⟨0, 0, 0, [], [], []⟩ =
      some ⟨1, 0, 0, FS.write [] (outputPath "satellite_images" "1") b1,
            [mapParams apiKey 40 (-74)], []⟩ := by
    have := stepRow_fetch_ok oracle apiKey "satellite_images" true ["id", "lat", "long"]
      0 [Cell.num 1, Cell.num 40, Cell.num (-74)] ⟨0, 0, 0, [], [], []⟩ "1" 40 (-74) b1
      (by decide) (by decide) (by decide) (by decide) hb1
    simpa using this
  have hs1 : stepRow oracle apiKey "satellite_images" true ["id", "lat", "long"] 1
      [Cell.num 2, Cell.na, Cell.num (-73)]
      ⟨1, 0, 0, FS.write [] (outputPath "satellite_images" "1") b1,
       [mapParams apiKey 40 (-74)], []⟩ =
      some ⟨1, 0, 1, FS.write [] (outputPath "satellite_images" "1") b1,
            [mapParams apiKey 40 (-74)], []⟩ := by
    have := stepRow_na oracle apiKey "satellite_images" true ["id", "lat", "long"] 1
      [Cell.num 2, Cell.na, Cell.num (-73)]
      ⟨1, 0, 0, FS.write [] (outputPath "satellite_images" "1") b1,
       [mapParams apiKey 40 (-74)], []⟩ "2" (by decide)
      (FS.pathExists_write_false [] (outputPath "satellite_images" "1") b1
        (outputPath "satellite_images" "2") (by decide) (by decide))
      (Or.inl (by decide))
    simpa using this
  have hs2 : stepRow oracle apiKey "satellite_images" true ["id", "lat", "long"] 2
      [Cell.num 3, Cell.num 41, Cell.num (-75)]
      ⟨1, 0, 1, FS.write [] (outputPath "satellite_images" "1") b1,
       [mapParams apiKey 40 (-74)], []⟩ =
      some ⟨2, 0, 1,
            FS.write (FS.write [] (outputPath "satellite_images" "1") b1)
              (outputPath "satellite_images" "3") b2,
            [mapParams apiKey 40 (-74), mapParams apiKey 41 (-75)], []⟩ := by
    have := stepRow_fetch_ok oracle apiKey "satellite_images" true ["id", "lat", "long"]
      2 [Cell.num 3, Cell.num 41, Cell.num (-75)]
      ⟨1, 0, 1, FS.write [] (outputPath "satellite_images" "1") b1,
       [mapParams apiKey 40 (-74)], []⟩ "3" 41 (-75) b2 (by decide)
      (FS.pathExists_write_false [] (outputPath "satellite_images" "1") b1
        (outputPath "satellite_images" "3") (by decide) (by decide))
      (by decide) (by decide) hb2
    simpa using this
  have hrun1 : processRows oracle apiKey "satellite_images"
      (scenarioDF.cols.contains "id") scenarioDF.cols scenarioDF.rows 0
      ⟨0, 0, 0, [], [], []⟩ =
      some ⟨2, 0, 1,
            FS.write (FS.write [] (outputPath "satellite_images" "1") b1)
              (outputPath "satellite_images" "3") b2,
            [mapParams apiKey 40 (-74), mapParams apiKey 41 (-75)], []⟩ := by
    show processRows oracle apiKey "satellite_images" true ["id", "lat", "long"]
      [[Cell.num 1, Cell.num 40, Cell.num (-74)],
       [Cell.num 2, Cell.na, Cell.num (-73)],
       [Cell.num 3, Cell.num 41, Cell.num (-75)]] 0 ⟨0, 0, 0, [], [], []⟩ = _
    simp [processRows, hs0, hs1, hs2]
  -- second run, row by row
  have ht0 : stepRow oracle apiKey "satellite_images" true ["id", "lat", "long"] 0
      [Cell.num 1, Cell.num 40, Cell.num (-74)]
      ⟨0, 0, 0,
       FS.write (FS.write [] (outputPath "satellite_images" "1") b1)
         (outputPath "satellite_images" "3") b2, [], []⟩ =
      some ⟨0, 1, 0,
            FS.write (FS.write [] (outputPath "satellite_images" "1") b1)
              (outputPath "satellite_images" "3") b2, [], []⟩ := by
    have := stepRow_skip oracle apiKey "satellite_images" true ["id", "lat", "long"] 0
      [Cell.num 1, Cell.num 40, Cell.num (-74)]
      ⟨0, 0, 0,
       FS.write (FS.write [] (outputPath "satellite_images" "1") b1)
         (outputPath "satellite_images" "3") b2, [], []⟩ "1" (by decide)
      (FS.pathExists_write_of (FS.write [] (outputPath "satellite_images" "1") b1)
        (outputPath "satellite_images" "3") b2 (outputPath "satellite_images" "1")
        (FS.pathExists_write_self [] (outputPath "satellite_images" "1") b1))
    simpa using this
  have ht1 : stepRow oracle apiKey "satellite_images" true ["id", "lat", "long"] 1
      [Cell.num 2, Cell.na, Cell.num (-73)]
      ⟨0, 1, 0,
       FS.write (FS.write [] (outputPath "satellite_images" "1") b1)
         (outputPath "satellite_images" "3") b2, [], []⟩ =
      some ⟨0, 1, 1,
            FS.write (FS.write [] (outputPath "satellite_images" "1") b1)
              (outputPath "satellite_images" "3") b2, [], []⟩ := by
    have := stepRow_na oracle apiKey "satellite_images" true ["id", "lat", "long"] 1
      [Cell.num 2, Cell.na, Cell.num (-73)]
      ⟨0, 1, 0,
       FS.write (FS.write [] (outputPath "satellite_images" "1") b1)
         (outputPath "satellite_images" "3") b2, [], []⟩ "2" (by decide)
      (FS.pathExists_write_false (FS.write [] (outputPath "satellite_images" "1") b1)
        (outputPath "satellite_images" "3") b2 (outputPath "satellite_images" "2")
        (by decide)
        (FS.pathExists_write_false [] (outputPath "satellite_images" "1") b1
          (outputPath "satellite_images" "2") (by decide) (by decide)))
      (Or.inl (by decide))
    simpa using this
  have ht2 : stepRow oracle apiKey "satellite_images" true ["id", "lat", "long"] 2
      [Cell.num 3, Cell.num 41, Cell.num (-75)]
      ⟨0, 1, 1,
       FS.write (FS.write [] (outputPath "satellite_images" "1") b1)
         (outputPath "satellite_images" "3") b2, [], []⟩ =
      some ⟨0, 2, 1,
            FS.write (FS.write [] (outputPath "satellite_images" "1") b1)
              (outputPath "satellite_images" "3") b2, [], []⟩ := by
    have := stepRow_skip oracle apiKey "satellite_images" true ["id", "lat", "long"] 2
      [Cell.num 3, Cell.num 41, Cell.num (-75)]
      ⟨0, 1, 1,
       FS.write (FS.write [] (outputPath "satellite_images" "1") b1)
         (outputPath "satellite_images" "3") b2, [], []⟩ "3" (by decide)
      (FS.pathExists_write_self (FS.write [] (outputPath "satellite_images" "1") b1)
        (outputPath "satellite_images" "3") b2)
    simpa using this
  have hrun2 : processRows oracle apiKey "satellite_images"
      (scenarioDF.cols.contains "id") scenarioDF.cols scenarioDF.rows 0
      ⟨0, 0, 0,
       FS.write (FS.write [] (outputPath "satellite_images" "1") b1)
         (outputPath "satellite_images" "3") b2, [], []⟩ =
      some ⟨0, 2, 1,
            FS.write (FS.write [] (outputPath "satellite_images" "1") b1)
              (outputPath "satellite_images" "3") b2, [], []⟩ := by
    show processRows oracle apiKey "satellite_images" true ["id", "lat", "long"]
      [[Cell.num 1, Cell.num 40, Cell.num (-74)],
       [Cell.num 2, Cell.na, Cell.num (-73)],
       [Cell.num 3, Cell.num 41, Cell.num (-75)]] 0
      ⟨0, 0, 0,
       FS.write (FS.write [] (outputPath "satellite_images" "1") b1)
         (outputPath "satellite_images" "3") b2, [], []⟩ = _
    simp [processRows, ht0, ht1, ht2]
  refine ⟨⟨2, 0, 1,
      FS.write (FS.write [] (outputPath "satellite_images" "1") b1)
        (outputPath "satellite_images" "3") b2,
      [mapParams apiKey 40 (-74), mapParams apiKey 41 (-75)], []⟩,
    ⟨0, 2, 1,
      FS.write (FS.write [] (outputPath "satellite_images" "1") b1)
        (outputPath "satellite_images" "3") b2, [], []⟩,
    ?_, rfl, rfl, rfl, ?_, rfl, rfl, rfl⟩
  · exact download_eq_done oracle apiKey scenarioDF scenarioDF "satellite_images" [] _
      (by decide) hrun1
  · exact download_eq_done oracle apiKey scenarioDF scenarioDF "satellite_images" _ _
      (by decide) hrun2

theorem c4_scenario_witness :
    ∃ st1 st2,
      download_images_from_df (fun _ => NetOutcome.resp 200 "B") none scenarioDF
        "satellite_images" [] = .done scenarioDF st1 ∧
      st1.saved = 2 ∧ st1.failed = 1 ∧ st1.skipped = 0 ∧
      download_images_from_df (fun _ => NetOutcome.resp 200 "B") none scenarioDF
        "satellite_images" st1.fs = .done scenarioDF st2 ∧
      st2.saved = 0 ∧ st2.failed = 1 ∧ st2.skipped = 2 :=
  c4_scenario (fun _ => NetOutcome.resp 200 "B") none (fun _ => ⟨"B", rfl⟩)

end DataFetcher
